import Mathlib

/-!
Verification of the TCS34725 RGB color sensor driver
(`hw/drivers/sensors/tcs34725/src/tcs34725.c`).

The driver is shallowly embedded: every bus primitive
(`hal_i2c_master_write` / `hal_i2c_master_read`) is modelled as a step on an
explicit driver state that records the trace of bus transactions, an error
counter, and the driver's global variables.  The outcome (result code and
read data) of the n-th bus transaction is supplied by an oracle `env`
carried in the state, so that theorems can quantify over all transport
behaviours and witnesses can pick concrete ones.
-/

/-- Modelled from the spec: command bit = bit 7 of the register address byte
(`TCS34725_COMMAND_BIT` lives in the header `tcs34725_priv.h`, which is not
part of the source tree here; the spec fixes it as `register | 0x80`). -/
def TCS34725_COMMAND_BIT : Nat := 0x80

/-- Modelled from the spec: special-command TYPE field `0b11 << 5`
(from the missing header; the spec gives the packed byte
`0x80 | (0b11 << 5) | 0b00110`). -/
def TCS34725_CMD_TYPE : Nat := 0x60

/-- Modelled from the spec: special-command ADDR/SF field `0b00110`
(from the missing header). -/
def TCS34725_CMD_ADDR : Nat := 0x06

/-- Modelled from the spec: enable register address (from the missing header
`tcs34725_priv.h`; the datasheet value is 0x00). -/
def TCS34725_REG_ENABLE : Nat := 0x00

/-- Modelled from the spec: timing-control (ATIME) register address (from the
missing header; datasheet value 0x01). -/
def TCS34725_REG_ATIME : Nat := 0x01

/-- Modelled from the spec: interrupt low-threshold low-byte register, start
of the 4 contiguous threshold bytes (from the missing header; datasheet
value 0x04). -/
def TCS34725_REG_AILTL : Nat := 0x04

/-- Modelled from the spec: gain-control register address (from the missing
header; datasheet value 0x0F). -/
def TCS34725_REG_CONTROL : Nat := 0x0F

/-- Modelled from the spec: chip-identity register address (from the missing
header; datasheet value 0x12). -/
def TCS34725_REG_ID : Nat := 0x12

/-- Modelled from the spec: clear-data-low register, start of the 8
contiguous data bytes (from the missing header; datasheet value 0x14). -/
def TCS34725_REG_CDATAL : Nat := 0x14

/-- Modelled from the spec: the fixed expected chip-identity constant (from
the missing header; datasheet value 0x44). -/
def TCS34725_ID : Nat := 0x44

/-- Modelled from the spec: power-on bit of the enable register (missing
header; datasheet value 0x01). -/
def TCS34725_ENABLE_PON : Nat := 0x01

/-- Modelled from the spec: ADC-enable bit of the enable register (missing
header; datasheet value 0x02). -/
def TCS34725_ENABLE_AEN : Nat := 0x02

/-- Modelled from the spec: gain 1x encoding (missing header `tcs34725.h`;
datasheet control-register value 0x00). -/
def TCS34725_GAIN_1X : Nat := 0x00

/-- Modelled from the spec: gain 4x encoding (missing header; 0x01). -/
def TCS34725_GAIN_4X : Nat := 0x01

/-- Modelled from the spec: gain 16x encoding (missing header; 0x02). -/
def TCS34725_GAIN_16X : Nat := 0x02

/-- Modelled from the spec: gain 60x encoding, the largest valid gain
(missing header; 0x03). -/
def TCS34725_GAIN_60X : Nat := 0x03

/-- Modelled from the spec: ATIME encoding of the 2.4 ms integration time
(missing header `tcs34725.h`; datasheet value 0xFF). -/
def TCS34725_INTEGRATIONTIME_2_4MS : Nat := 0xFF

/-- Modelled from the spec: ATIME encoding of the 24 ms integration time
(missing header; datasheet value 0xF6). -/
def TCS34725_INTEGRATIONTIME_24MS : Nat := 0xF6

/-- Modelled from the spec: ATIME encoding of the 50 ms integration time
(missing header; datasheet value 0xEB). -/
def TCS34725_INTEGRATIONTIME_50MS : Nat := 0xEB

/-- Modelled from the spec: ATIME encoding of the 101 ms integration time
(missing header; datasheet value 0xD5). -/
def TCS34725_INTEGRATIONTIME_101MS : Nat := 0xD5

/-- Modelled from the spec: ATIME encoding of the 154 ms integration time
(missing header; datasheet value 0xC0). -/
def TCS34725_INTEGRATIONTIME_154MS : Nat := 0xC0

/-- Modelled from the spec: ATIME encoding of the 700 ms integration time
(missing header; datasheet value 0x00). -/
def TCS34725_INTEGRATIONTIME_700MS : Nat := 0x00

/-- Modelled from the spec: the validation error code `SYS_EINVAL` from the
missing header `defs/error.h` (mynewt value -2; only its being nonzero
matters below). -/
def SYS_EINVAL : Int := -2

/-- One observable bus-side effect: a write transaction carrying the bytes
actually transmitted (the first `len` bytes of the C buffer), a read
transaction of a given length, or a blocking sleep of `os_time_delay`. -/
inductive BusEvent where
  | write (buf : List Nat) : BusEvent
  | read (len : Nat) : BusEvent
  | delay (ticks : Nat) : BusEvent
  deriving Repr, DecidableEq

/-- The `struct tcs34725_cfg` value type: `{ integration_time, gain }`,
both byte fields. -/
structure Cfg where
  integration_time : Nat
  gain : Nat
  deriving Repr, DecidableEq

/-- Driver state: the transport oracle (`env n` is the result code and, for
reads, the delivered bytes of the n-th bus transaction), the number of bus
transactions issued so far, the event trace, the stats error counter, the
driver's three global variables, and the `cfg` field of `struct tcs34725`. -/
structure St where
  env : Nat → Int × List Nat
  opCount : Nat
  events : List BusEvent
  errors : Nat
  g_tcs34725_gain : Nat
  g_tcs34725_integration_time : Nat
  g_tcs34725_enabled : Nat
  cfg : Cfg

/-- `STATS_INC(g_tcs34725stats, errors)` with the stats subsystem compiled
in. -/
def statsIncErrors (s : St) : St :=
  { s with errors := s.errors + 1 }

/-- The blocking transport write: the oracle decides the result code; the
transmitted bytes are appended to the trace. -/
def hal_i2c_master_write (s : St) (buf : List Nat) : Int × St :=
  ((s.env s.opCount).1,
   { s with opCount := s.opCount + 1, events := s.events ++ [BusEvent.write buf] })

/-- The blocking transport read: the oracle decides the result code and the
delivered data, which fills the caller's (pre-zeroed) buffer; bytes are
reduced mod 256 at the bus boundary and the buffer is padded with zeroes up
to `len`. -/
def hal_i2c_master_read (s : St) (len : Nat) : Int × List Nat × St :=
  ((s.env s.opCount).1,
   (((s.env s.opCount).2.map (· % 256)) ++ List.replicate len 0).take len,
   { s with opCount := s.opCount + 1, events := s.events ++ [BusEvent.read len] })

/-- `os_time_delay(ticks)`: a cooperative blocking sleep, recorded in the
trace. -/
def os_time_delay (s : St) (ticks : Nat) : St :=
  { s with events := s.events ++ [BusEvent.delay ticks] }

/-- `tcs34725_write8`: one two-byte transaction `[reg | COMMAND_BIT,
value & 0xFF]`; on failure the error counter is incremented. -/
def tcs34725_write8 (s : St) (reg : Nat) (value : Nat) : Int × St :=
  let w := hal_i2c_master_write s [(reg % 256) ||| TCS34725_COMMAND_BIT, value % 256]
  if w.1 ≠ 0 then (w.1, statsIncErrors w.2) else (w.1, w.2)

/-- `tcs34725_read8`: write `[reg | COMMAND_BIT]`, then read one byte.
`none` for the output byte models `*value` being left unassigned (the C
only writes `*value` once the read phase has been attempted); each failing
phase increments the error counter. -/
def tcs34725_read8 (s : St) (reg : Nat) : Int × Option Nat × St :=
  let w := hal_i2c_master_write s [(reg % 256) ||| TCS34725_COMMAND_BIT]
  if w.1 ≠ 0 then (w.1, none, statsIncErrors w.2)
  else
    let r := hal_i2c_master_read w.2 1
    if r.1 ≠ 0 then (r.1, some (r.2.1.headD 0), statsIncErrors r.2.2)
    else (r.1, some (r.2.1.headD 0), r.2.2)

/-- `tcs34725_readlen`: the supplied buffer is zero-filled first, then
write `[reg | COMMAND_BIT]` (the 9-byte scratch payload with
`data_struct.len = 1`), then read `len` bytes; on either failure the
zero-filled buffer is returned untouched and the error counter is
incremented. -/
def tcs34725_readlen (s : St) (reg : Nat) (len : Nat) : Int × List Nat × St :=
  let payload := ((reg % 256) ||| TCS34725_COMMAND_BIT) :: List.replicate 8 0
  let w := hal_i2c_master_write s (payload.take 1)
  if w.1 ≠ 0 then (w.1, List.replicate len 0, statsIncErrors w.2)
  else
    let r := hal_i2c_master_read w.2 len
    if r.1 ≠ 0 then (r.1, List.replicate len 0, statsIncErrors r.2.2)
    else (r.1, r.2.1, r.2.2)

/-- `tcs34725_writelen`, embedded exactly as written in the source: the
9-byte scratch payload is `[reg, buffer[0..len-1], 0...]`, but the first
transaction is issued with `data_struct.len` still equal to 1 (so only
`payload[0] = reg` is transmitted, without the command bit); then the
payload is `memset` to zero and a second transaction of `len` bytes of that
zeroed payload is issued.  The caller's bytes are never transmitted. -/
def tcs34725_writelen (s : St) (reg : Nat) (buffer : List Nat) (len : Nat) : Int × St :=
  let payload := (reg % 256) :: ((buffer.map (· % 256)).take len
                    ++ List.replicate (8 - len) 0)
  let w1 := hal_i2c_master_write s (payload.take 1)
  if w1.1 ≠ 0 then (w1.1, statsIncErrors w1.2)
  else
    let payload2 : List Nat := List.replicate 9 0
    let w2 := hal_i2c_master_write w1.2 (payload2.take len)
    if w2.1 ≠ 0 then (w2.1, statsIncErrors w2.2)
    else (w2.1, w2.2)

/-- `tcs34725_clear_interrupt`: a zero-payload-length special-command
transaction (`data_struct.len = 0`); note the source increments no error
counter on failure in this path. -/
def tcs34725_clear_interrupt (s : St) : Int × St :=
  let payload := TCS34725_COMMAND_BIT ||| TCS34725_CMD_TYPE ||| TCS34725_CMD_ADDR
  let w := hal_i2c_master_write s ([payload].take 0)
  if w.1 ≠ 0 then (w.1, w.2) else (w.1, w.2)

/-- `tcs34725_enable`: read the enable register, sleep the fixed ~3 ms
settle delay, then read-modify-write the PON and AEN bits; the in-memory
enabled flag is updated only after a successful write.  `T` stands for the
platform constant `OS_TICKS_PER_SEC`. -/
def tcs34725_enable (s : St) (T : Nat) (enable : Nat) : Int × St :=
  let r := tcs34725_read8 s TCS34725_REG_ENABLE
  if r.1 ≠ 0 then (r.1, r.2.2)
  else
    let reg := r.2.1.getD 0
    let s1 := os_time_delay r.2.2 ((3 * T) / 1000 + 1)
    if enable ≠ 0 then
      let w := tcs34725_write8 s1 TCS34725_REG_ENABLE
                 (reg ||| TCS34725_ENABLE_PON ||| TCS34725_ENABLE_AEN)
      if w.1 ≠ 0 then (w.1, w.2)
      else (0, { w.2 with g_tcs34725_enabled := enable })
    else
      let w := tcs34725_write8 s1 TCS34725_REG_ENABLE
                 (reg &&& (0xFF ^^^ (TCS34725_ENABLE_PON ||| TCS34725_ENABLE_AEN)))
      if w.1 ≠ 0 then (w.1, w.2)
      else (0, { w.2 with g_tcs34725_enabled := enable })

/-- `tcs34725_set_integration_time`: write `int_time | g_tcs34725_gain` to
the ATIME register; update the global only on success. -/
def tcs34725_set_integration_time (s : St) (int_time : Nat) : Int × St :=
  let w := tcs34725_write8 s TCS34725_REG_ATIME (int_time ||| s.g_tcs34725_gain)
  if w.1 ≠ 0 then (w.1, w.2)
  else (w.1, { w.2 with g_tcs34725_integration_time := int_time })

/-- `tcs34725_get_integration_time`: returns the global. -/
def tcs34725_get_integration_time (s : St) : Nat :=
  s.g_tcs34725_integration_time

/-- `tcs34725_set_gain`: reject `gain > TCS34725_GAIN_60X` with
`SYS_EINVAL` before any bus operation; otherwise write
`g_tcs34725_integration_time | gain` to the control register and update the
global only on success. -/
def tcs34725_set_gain (s : St) (gain : Nat) : Int × St :=
  if gain > TCS34725_GAIN_60X then (SYS_EINVAL, s)
  else
    let w := tcs34725_write8 s TCS34725_REG_CONTROL
               (s.g_tcs34725_integration_time ||| gain)
    if w.1 ≠ 0 then (w.1, w.2)
    else (w.1, { w.2 with g_tcs34725_gain := gain })

/-- `tcs34725_get_gain`: returns the global. -/
def tcs34725_get_gain (s : St) : Nat :=
  s.g_tcs34725_gain

/-- `tcs34725_get_chip_id`: a single register read; `*id` is assigned only
on success. -/
def tcs34725_get_chip_id (s : St) : Int × Option Nat × St :=
  let r := tcs34725_read8 s TCS34725_REG_ID
  if r.1 ≠ 0 then (r.1, none, r.2.2)
  else (0, r.2.1, r.2.2)

/-- `tcs34725_config`: read the chip id, and unless it equals
`TCS34725_ID` with a clean result code fail with `SYS_EINVAL`; otherwise
enable, set integration time, set gain, accumulating the three result codes
with bitwise or (`rc |= ...`), and `memcpy` the configuration snapshot only
when the accumulated code is zero. -/
def tcs34725_config (s : St) (T : Nat) (cfg : Cfg) : Int × St :=
  let c := tcs34725_get_chip_id s
  if c.2.1 ≠ some TCS34725_ID ∨ c.1 ≠ 0 then (SYS_EINVAL, c.2.2)
  else
    let e := tcs34725_enable c.2.2 T 1
    let i := tcs34725_set_integration_time e.2 cfg.integration_time
    let g := tcs34725_set_gain i.2 cfg.gain
    let rc := Int.lor (Int.lor (Int.lor c.1 e.1) i.1) g.1
    if rc ≠ 0 then (rc, g.2)
    else (rc, { g.2 with cfg := cfg })

/-- The settle-delay switch at the top of `tcs34725_get_rawdata`: the six
table entries map to `(ms * OS_TICKS_PER_SEC)/1000 + 1` ticks with their
rounded-up millisecond counts, and any other byte is treated as a direct
millisecond count with the same rounding. -/
def rawdata_delay_ticks (int_time : Nat) (T : Nat) : Nat :=
  if int_time = TCS34725_INTEGRATIONTIME_2_4MS then (3 * T) / 1000 + 1
  else if int_time = TCS34725_INTEGRATIONTIME_24MS then (24 * T) / 1000 + 1
  else if int_time = TCS34725_INTEGRATIONTIME_50MS then (50 * T) / 1000 + 1
  else if int_time = TCS34725_INTEGRATIONTIME_101MS then (101 * T) / 1000 + 1
  else if int_time = TCS34725_INTEGRATIONTIME_154MS then (154 * T) / 1000 + 1
  else if int_time = TCS34725_INTEGRATIONTIME_700MS then (700 * T) / 1000 + 1
  else (int_time * T) / 1000 + 1

/-- The four raw channel counts `{red, green, blue, clear}`. -/
structure RawSample where
  r : Nat
  g : Nat
  b : Nat
  c : Nat
  deriving Repr, DecidableEq

/-- `tcs34725_get_rawdata`: sleep the integration-time-dependent delay for
`tcs34725->cfg.integration_time`, zero the four outputs, then one 8-byte
block read at the clear-data-low register, decoded as four little-endian
16-bit values in the order clear, red, green, blue.  (The per-integration
sample counters of the stats section play no role in any claim and are not
modelled.) -/
def tcs34725_get_rawdata (s : St) (T : Nat) : Int × RawSample × St :=
  let s1 := os_time_delay s (rawdata_delay_ticks s.cfg.integration_time T)
  let rd := tcs34725_readlen s1 TCS34725_REG_CDATAL 8
  if rd.1 ≠ 0 then (rd.1, ⟨0, 0, 0, 0⟩, rd.2.2)
  else
    let p := rd.2.1
    (rd.1,
     { c := (p.getD 1 0) <<< 8 ||| p.getD 0 0
       r := (p.getD 3 0) <<< 8 ||| p.getD 2 0
       g := (p.getD 5 0) <<< 8 ||| p.getD 4 0
       b := (p.getD 7 0) <<< 8 ||| p.getD 6 0 },
     rd.2.2)

/-- `tcs34725_set_int_limits`: build the four-byte little-endian payload
`[low & 0xFF, low >> 8, high & 0xFF, high >> 8]` and hand it to
`tcs34725_writelen` at the low-threshold register. -/
def tcs34725_set_int_limits (s : St) (low : Nat) (high : Nat) : Int × St :=
  let payload := [low &&& 0xFF, (low >>> 8) % 256, high &&& 0xFF, (high >>> 8) % 256]
  let w := tcs34725_writelen s TCS34725_REG_AILTL payload 4
  if w.1 ≠ 0 then (w.1, w.2) else (0, w.2)

/-- `tcs34725_get_int_limits`: four-byte block read at the low-threshold
register, assembled as two little-endian 16-bit values; the outputs are
assigned only on success (`none` on failure). -/
def tcs34725_get_int_limits (s : St) : Int × Option (Nat × Nat) × St :=
  let r := tcs34725_readlen s TCS34725_REG_AILTL 4
  if r.1 ≠ 0 then (r.1, none, r.2.2)
  else
    let p := r.2.1
    (0, some (p.getD 0 0 ||| (p.getD 1 0) <<< 8,
              p.getD 2 0 ||| (p.getD 3 0) <<< 8), r.2.2)

/-- Modelled from the spec: the nominal conversion time, in tenths of a
millisecond, that the spec attaches to each integration-time byte — the six
documented values 2.4/24/50/101/154/700 ms, any other byte read as a direct
millisecond count.  Used only to compare the code's delay against the
spec's notion of nominal conversion time. -/
def nominalConversionTenthsMs (int_time : Nat) : Nat :=
  if int_time = TCS34725_INTEGRATIONTIME_2_4MS then 24
  else if int_time = TCS34725_INTEGRATIONTIME_24MS then 240
  else if int_time = TCS34725_INTEGRATIONTIME_50MS then 500
  else if int_time = TCS34725_INTEGRATIONTIME_101MS then 1010
  else if int_time = TCS34725_INTEGRATIONTIME_154MS then 1540
  else if int_time = TCS34725_INTEGRATIONTIME_700MS then 7000
  else 10 * int_time

/-- A fresh driver state over a given transport oracle: no transactions
issued, empty trace, zeroed counters and globals. -/
def initSt (env : Nat → Int × List Nat) : St :=
  { env := env, opCount := 0, events := [], errors := 0,
    g_tcs34725_gain := 0, g_tcs34725_integration_time := 0,
    g_tcs34725_enabled := 0, cfg := ⟨0, 0⟩ }

/-- An oracle whose every transaction succeeds, delivering `data n` for the
n-th transaction when it is a read. -/
def envOkWith (data : Nat → List Nat) : Nat → Int × List Nat :=
  fun n => (0, data n)

/-- An oracle whose every transaction succeeds and delivers no data. -/
def envOk : Nat → Int × List Nat :=
  envOkWith (fun _ => [])

/-- An oracle whose every transaction fails with code -1. -/
def envFail : Nat → Int × List Nat :=
  fun _ => (-1, [])

/-- The `tcs34725_enable(1)` step of `tcs34725_config`, run from the state
left by the chip-identity read. -/
def config_step_e (s : St) (T : Nat) : Int × St :=
  tcs34725_enable (tcs34725_get_chip_id s).2.2 T 1

/-- The `tcs34725_set_integration_time` step of `tcs34725_config`. -/
def config_step_i (s : St) (T : Nat) (cfg : Cfg) : Int × St :=
  tcs34725_set_integration_time (config_step_e s T).2 cfg.integration_time

/-- The `tcs34725_set_gain` step of `tcs34725_config`. -/
def config_step_g (s : St) (T : Nat) (cfg : Cfg) : Int × St :=
  tcs34725_set_gain (config_step_i s T cfg).2 cfg.gain

/-- A natural-number bitwise or is zero only when both operands are. -/
theorem nat_lor_zero (m n : Nat) (h : m ||| n = 0) : m = 0 ∧ n = 0 := by
  constructor
  · refine Nat.zero_of_testBit_eq_false fun i => ?_
    have h2 := congrArg (fun x => Nat.testBit x i) h
    simp only [Nat.testBit_lor, Nat.zero_testBit, Bool.or_eq_false_iff] at h2
    exact h2.1
  · refine Nat.zero_of_testBit_eq_false fun i => ?_
    have h2 := congrArg (fun x => Nat.testBit x i) h
    simp only [Nat.testBit_lor, Nat.zero_testBit, Bool.or_eq_false_iff] at h2
    exact h2.2

/-- A two's-complement bitwise or of result codes is zero only when both
codes are zero — this is why `rc |= step()` accumulation in
`tcs34725_config` reports success exactly when every step succeeded. -/
theorem int_lor_zero (a b : Int) (h : Int.lor a b = 0) : a = 0 ∧ b = 0 := by
  cases a with
  | ofNat m =>
    cases b with
    | ofNat n =>
      simp only [Int.lor] at h
      have hmn : m ||| n = 0 := by exact_mod_cast h
      have h2 := nat_lor_zero m n hmn
      simp [h2.1, h2.2]
    | negSucc n => simp [Int.lor] at h
  | negSucc m => cases b <;> simp [Int.lor] at h

/-- Little-endian reassembly: `hi <<< 8 ||| lo` is `hi * 256 + lo` when the
low byte fits in 8 bits. -/
theorem decode16 (hi lo : Nat) (h : lo < 256) : (hi <<< 8) ||| lo = hi * 256 + lo := by
  rw [Nat.shiftLeft_eq]
  have h2 := Nat.mul_add_lt_is_or (i := 8) (b := lo) (by simpa using h) hi
  rw [Nat.mul_comm hi (2 ^ 8)]
  exact h2.symm

/-- `tcs34725_read8` never touches the configuration snapshot. -/
theorem tcs34725_read8_cfg (s : St) (reg : Nat) :
    (tcs34725_read8 s reg).2.2.cfg = s.cfg := by
  unfold tcs34725_read8 hal_i2c_master_write hal_i2c_master_read statsIncErrors
  dsimp only
  split_ifs <;> rfl

/-- `tcs34725_write8` never touches the configuration snapshot. -/
theorem tcs34725_write8_cfg (s : St) (reg value : Nat) :
    (tcs34725_write8 s reg value).2.cfg = s.cfg := by
  unfold tcs34725_write8 hal_i2c_master_write statsIncErrors
  dsimp only
  split_ifs <;> rfl

/-- `tcs34725_get_chip_id` never touches the configuration snapshot. -/
theorem tcs34725_get_chip_id_cfg (s : St) :
    (tcs34725_get_chip_id s).2.2.cfg = s.cfg := by
  unfold tcs34725_get_chip_id
  dsimp only
  split_ifs <;> exact tcs34725_read8_cfg s TCS34725_REG_ID

/-- `tcs34725_enable` never touches the configuration snapshot. -/
theorem tcs34725_enable_cfg (s : St) (T enable : Nat) :
    (tcs34725_enable s T enable).2.cfg = s.cfg := by
  unfold tcs34725_enable os_time_delay
  dsimp only
  split_ifs <;>
    simp [tcs34725_write8_cfg, tcs34725_read8_cfg]

/-- `tcs34725_set_integration_time` never touches the configuration
snapshot. -/
theorem tcs34725_set_integration_time_cfg (s : St) (int_time : Nat) :
    (tcs34725_set_integration_time s int_time).2.cfg = s.cfg := by
  unfold tcs34725_set_integration_time
  dsimp only
  split_ifs <;> simp [tcs34725_write8_cfg]

/-- `tcs34725_set_gain` never touches the configuration snapshot. -/
theorem tcs34725_set_gain_cfg (s : St) (gain : Nat) :
    (tcs34725_set_gain s gain).2.cfg = s.cfg := by
  unfold tcs34725_set_gain
  dsimp only
  split_ifs <;> simp [tcs34725_write8_cfg]

/-- C1.  The claim says `tcs34725_writelen` transmits `[register, byte0,
..., byteN-1]` as one bus transaction.  Evaluating the embedded source at
the block write issued by `tcs34725_set_int_limits(10, 5)` (register
`TCS34725_REG_AILTL`, payload `[10, 0, 5, 0]`, every transport call
succeeding) shows the code instead issues two transactions — first the bare
register byte alone (`data_struct.len` is still 1), then, after the scratch
payload has been `memset` to zero, four zero bytes — so the payload bytes
never reach the device. -/
theorem C1_code_divergence :
    (tcs34725_writelen (initSt envOk) TCS34725_REG_AILTL [10, 0, 5, 0] 4).1 = 0 ∧
    (tcs34725_writelen (initSt envOk) TCS34725_REG_AILTL [10, 0, 5, 0] 4).2.events =
      [BusEvent.write [TCS34725_REG_AILTL], BusEvent.write [0, 0, 0, 0]] ∧
    BusEvent.write [TCS34725_REG_AILTL, 10, 0, 5, 0] ∉
      (tcs34725_writelen (initSt envOk) TCS34725_REG_AILTL [10, 0, 5, 0] 4).2.events := by
  decide

/-- C2.  The claim says `setInterruptLimits(10, 5)` followed by
`getInterruptLimits()` round-trips to exactly `(10, 5)` because the four
little-endian threshold bytes are written and read back.  Evaluating the
embedded source: the set call reports success but puts only `[0x04]` and
then `[0, 0, 0, 0]` on the bus — the threshold bytes `[10, 0, 5, 0]` are
never transmitted (the `tcs34725_writelen` slip) — and a subsequent get on
a device whose threshold registers therefore still read back as zeroes
returns `(0, 0)`, not `(10, 5)`. -/
theorem C2_roundtrip_divergence :
    (tcs34725_set_int_limits (initSt envOk) 10 5).1 = 0 ∧
    (tcs34725_set_int_limits (initSt envOk) 10 5).2.events =
      [BusEvent.write [TCS34725_REG_AILTL], BusEvent.write [0, 0, 0, 0]] ∧
    (tcs34725_get_int_limits (tcs34725_set_int_limits (initSt envOk) 10 5).2).2.1 =
      some (0, 0) ∧
    some ((0 : Nat), (0 : Nat)) ≠ some ((10 : Nat), (5 : Nat)) := by
  decide

/-- C3 counterexample.  The claim says the settle delay used by
`tcs34725_get_rawdata` corresponds to the integration time most recently
applied via `tcs34725_set_integration_time`.  Concretely: start from a
device whose stored configuration snapshot holds the 24 ms setting, apply
the 2.4 ms setting through the setter (successfully), then acquire at
`OS_TICKS_PER_SEC = 1000`.  The setter's value would give a 4-tick delay,
but the code sleeps 25 ticks — it reads `tcs34725->cfg.integration_time`,
which the setter never updates. -/
theorem C3_counterexample :
    tcs34725_get_integration_time
      (tcs34725_set_integration_time
        { initSt envOk with cfg := ⟨TCS34725_INTEGRATIONTIME_24MS, 0⟩ }
        TCS34725_INTEGRATIONTIME_2_4MS).2 = TCS34725_INTEGRATIONTIME_2_4MS ∧
    (tcs34725_get_rawdata
      (tcs34725_set_integration_time
        { initSt envOk with cfg := ⟨TCS34725_INTEGRATIONTIME_24MS, 0⟩ }
        TCS34725_INTEGRATIONTIME_2_4MS).2 1000).2.2.events =
      [BusEvent.write [0x81, 0xFF], BusEvent.delay 25,
       BusEvent.write [0x94], BusEvent.read 8] ∧
    rawdata_delay_ticks TCS34725_INTEGRATIONTIME_2_4MS 1000 = 4 ∧
    (25 : Nat) ≠ 4 := by
  decide

/-- C3 as amended: in every execution of `tcs34725_get_rawdata` the delay
lookup for the integration time stored in the device's configuration
snapshot (`tcs34725->cfg.integration_time`, the value most recently applied
via `tcs34725_config` — not the global updated by the bare setter) precedes
every bus operation of the call: the trace extends the prior trace with the
delay event first. -/
theorem C3_delay_precedes_read (s : St) (T : Nat) :
    ∃ rest, (tcs34725_get_rawdata s T).2.2.events =
      s.events ++ BusEvent.delay (rawdata_delay_ticks s.cfg.integration_time T) :: rest := by
  unfold tcs34725_get_rawdata tcs34725_readlen hal_i2c_master_write hal_i2c_master_read
    os_time_delay statsIncErrors
  dsimp only
  split_ifs <;>
    simp only [List.append_assoc, List.singleton_append, List.cons_append,
      List.nil_append] <;>
    exact ⟨_, rfl⟩

/-- C4.  If the chip-identity read fails or returns a byte other than
`TCS34725_ID`, then `tcs34725_config` returns `SYS_EINVAL` and the final
state is exactly the state after the identity read: no further bus
operations (`tcs34725_enable`, `tcs34725_set_integration_time`,
`tcs34725_set_gain` are never reached) and no state change beyond it. -/
theorem C4_config_id_mismatch (s : St) (T : Nat) (cfg : Cfg)
    (h : (tcs34725_get_chip_id s).2.1 ≠ some TCS34725_ID ∨
         (tcs34725_get_chip_id s).1 ≠ 0) :
    (tcs34725_config s T cfg).1 = SYS_EINVAL ∧
    (tcs34725_config s T cfg).2 = (tcs34725_get_chip_id s).2.2 ∧
    (tcs34725_config s T cfg).2.events = (tcs34725_get_chip_id s).2.2.events := by
  unfold tcs34725_config
  dsimp only
  rw [if_pos h]
  exact ⟨rfl, rfl, rfl⟩

/-- C4 witness: a transport whose reads deliver the byte 0x45 (not the
expected 0x44) makes `tcs34725_config` fail with `SYS_EINVAL` right after
the identity read. -/
theorem C4_witness :
    (tcs34725_config (initSt (envOkWith fun _ => [0x45])) 128 ⟨0xF6, 2⟩).1 = SYS_EINVAL ∧
    (tcs34725_config (initSt (envOkWith fun _ => [0x45])) 128 ⟨0xF6, 2⟩).2 =
      (tcs34725_get_chip_id (initSt (envOkWith fun _ => [0x45]))).2.2 ∧
    (tcs34725_config (initSt (envOkWith fun _ => [0x45])) 128 ⟨0xF6, 2⟩).2.events =
      (tcs34725_get_chip_id (initSt (envOkWith fun _ => [0x45]))).2.2.events :=
  C4_config_id_mismatch (initSt (envOkWith fun _ => [0x45])) 128 ⟨0xF6, 2⟩ (by decide)

/-- In the identity-ok case `tcs34725_config` runs enable, integration time
and gain, accumulates their result codes with `rc |= ...`, and branches on
the accumulated code. -/
theorem tcs34725_config_unfold_ok (s : St) (T : Nat) (cfg : Cfg)
    (hid : (tcs34725_get_chip_id s).2.1 = some TCS34725_ID)
    (hrc : (tcs34725_get_chip_id s).1 = 0) :
    tcs34725_config s T cfg =
      (if Int.lor (Int.lor (Int.lor (tcs34725_get_chip_id s).1 (config_step_e s T).1)
            (config_step_i s T cfg).1) (config_step_g s T cfg).1 ≠ 0
       then (Int.lor (Int.lor (Int.lor (tcs34725_get_chip_id s).1 (config_step_e s T).1)
              (config_step_i s T cfg).1) (config_step_g s T cfg).1,
             (config_step_g s T cfg).2)
       else (Int.lor (Int.lor (Int.lor (tcs34725_get_chip_id s).1 (config_step_e s T).1)
              (config_step_i s T cfg).1) (config_step_g s T cfg).1,
             { (config_step_g s T cfg).2 with cfg := cfg })) := by
  unfold tcs34725_config config_step_g config_step_i config_step_e
  dsimp only
  rw [if_neg (show ¬((tcs34725_get_chip_id s).2.1 ≠ some TCS34725_ID ∨
    (tcs34725_get_chip_id s).1 ≠ 0) by push_neg; exact ⟨hid, hrc⟩)]

/-- C5.  `tcs34725_config` updates the stored configuration snapshot
exactly when the identity check and all three sub-steps (enable,
integration time, gain) succeed; when a sub-step fails it returns a nonzero
code, leaves the snapshot unchanged, and keeps every bus operation already
issued by the sub-steps (no rollback); when the identity check fails it
returns a nonzero code and leaves the snapshot unchanged. -/
theorem C5_config_snapshot_iff (s : St) (T : Nat) (cfg : Cfg) :
    (((tcs34725_get_chip_id s).2.1 = some TCS34725_ID ∧
        (tcs34725_get_chip_id s).1 = 0) →
      (((config_step_e s T).1 = 0 ∧ (config_step_i s T cfg).1 = 0 ∧
          (config_step_g s T cfg).1 = 0) →
        (tcs34725_config s T cfg).1 = 0 ∧ (tcs34725_config s T cfg).2.cfg = cfg) ∧
      (¬((config_step_e s T).1 = 0 ∧ (config_step_i s T cfg).1 = 0 ∧
          (config_step_g s T cfg).1 = 0) →
        (tcs34725_config s T cfg).1 ≠ 0 ∧
        (tcs34725_config s T cfg).2.cfg = s.cfg ∧
        (tcs34725_config s T cfg).2.events = (config_step_g s T cfg).2.events)) ∧
    (((tcs34725_get_chip_id s).2.1 ≠ some TCS34725_ID ∨
        (tcs34725_get_chip_id s).1 ≠ 0) →
      (tcs34725_config s T cfg).1 ≠ 0 ∧ (tcs34725_config s T cfg).2.cfg = s.cfg) := by
  have hgcfg : (config_step_g s T cfg).2.cfg = s.cfg := by
    unfold config_step_g config_step_i config_step_e
    rw [tcs34725_set_gain_cfg, tcs34725_set_integration_time_cfg, tcs34725_enable_cfg,
      tcs34725_get_chip_id_cfg]
  constructor
  · rintro ⟨hid, hrc⟩
    have hcfg := tcs34725_config_unfold_ok s T cfg hid hrc
    rw [hrc] at hcfg
    constructor
    · rintro ⟨he, hi, hg⟩
      rw [he, hi, hg] at hcfg
      have h0 : Int.lor (Int.lor (Int.lor 0 0) 0) 0 = 0 := by decide
      rw [h0, if_neg (by simp)] at hcfg
      rw [hcfg]
      exact ⟨rfl, rfl⟩
    · intro hne
      have hlorne : Int.lor (Int.lor (Int.lor 0 (config_step_e s T).1)
          (config_step_i s T cfg).1) (config_step_g s T cfg).1 ≠ 0 := by
        intro h0
        have h1 := int_lor_zero _ _ h0
        have h2 := int_lor_zero _ _ h1.1
        have h3 := int_lor_zero _ _ h2.1
        exact hne ⟨h3.2, h2.2, h1.2⟩
      rw [if_pos hlorne] at hcfg
      rw [hcfg]
      exact ⟨hlorne, hgcfg, rfl⟩
  · intro h
    unfold tcs34725_config
    dsimp only
    rw [if_pos h]
    refine ⟨?_, tcs34725_get_chip_id_cfg s⟩
    show SYS_EINVAL ≠ 0
    decide

/-- C5 witness: with a transport that answers every read with the expected
identity byte for the id read and zeroes afterwards, and every write
succeeding, `tcs34725_config` succeeds and the snapshot becomes the
requested configuration. -/
theorem C5_witness :
    (tcs34725_config (initSt (envOkWith fun n => if n = 1 then [0x44] else [0])) 128
      ⟨0xF6, 2⟩).1 = 0 ∧
    (tcs34725_config (initSt (envOkWith fun n => if n = 1 then [0x44] else [0])) 128
      ⟨0xF6, 2⟩).2.cfg = ⟨0xF6, 2⟩ :=
  ((C5_config_snapshot_iff (initSt (envOkWith fun n => if n = 1 then [0x44] else [0]))
      128 ⟨0xF6, 2⟩).1 (by decide)).1 (by decide)

/-- When the transport accepts the transaction, `tcs34725_write8` returns 0
and only appends the two-byte frame to the trace. -/
theorem tcs34725_write8_ok (s : St) (reg value : Nat)
    (h : (s.env s.opCount).1 = 0) :
    tcs34725_write8 s reg value =
      (0, { s with
            opCount := s.opCount + 1
            events := s.events ++
              [BusEvent.write [(reg % 256) ||| TCS34725_COMMAND_BIT, value % 256]] }) := by
  unfold tcs34725_write8 hal_i2c_master_write
  dsimp only
  rw [h]
  simp

/-- C6.  Every gain at most `TCS34725_GAIN_60X` (the enumerated set 1x, 4x,
16x, 60x) is accepted: with a succeeding bus write `tcs34725_set_gain`
returns 0 and `tcs34725_get_gain` then reports the new gain.  Every byte
above `TCS34725_GAIN_60X` is rejected with `SYS_EINVAL` before any bus
operation, leaving the state (stored gain included) untouched. -/
theorem C6_set_gain (s : St) (g : Nat) :
    (g ≤ TCS34725_GAIN_60X → (s.env s.opCount).1 = 0 →
      (tcs34725_set_gain s g).1 = 0 ∧
      tcs34725_get_gain (tcs34725_set_gain s g).2 = g) ∧
    (TCS34725_GAIN_60X < g → g < 256 →
      (tcs34725_set_gain s g).1 = SYS_EINVAL ∧ (tcs34725_set_gain s g).2 = s) := by
  constructor
  · intro hle h0
    unfold tcs34725_set_gain
    dsimp only
    rw [if_neg (show ¬g > TCS34725_GAIN_60X by omega),
      tcs34725_write8_ok s TCS34725_REG_CONTROL (s.g_tcs34725_integration_time ||| g) h0]
    dsimp only
    rw [if_neg (by simp)]
    exact ⟨rfl, rfl⟩
  · intro hgt _
    unfold tcs34725_set_gain
    dsimp only
    rw [if_pos hgt]
    exact ⟨rfl, rfl⟩

/-- C6 witness: on a fresh device with an accepting transport, setting gain
16x (encoding 2) succeeds and reads back as 2, while setting the
out-of-range byte 5 fails with `SYS_EINVAL` and changes nothing. -/
theorem C6_witness :
    ((tcs34725_set_gain (initSt envOk) 2).1 = 0 ∧
     tcs34725_get_gain (tcs34725_set_gain (initSt envOk) 2).2 = 2) ∧
    ((tcs34725_set_gain (initSt envOk) 5).1 = SYS_EINVAL ∧
     (tcs34725_set_gain (initSt envOk) 5).2 = initSt envOk) :=
  ⟨(C6_set_gain (initSt envOk) 2).1 (by decide) (by decide),
   (C6_set_gain (initSt envOk) 5).2 (by decide) (by decide)⟩

/-- C7.  Whenever the 8-byte block read at the clear-data-low register
succeeds and the bus delivers bytes `b0..b7`, `tcs34725_get_rawdata`
decodes them as four little-endian 16-bit values in the fixed order clear
(bytes 0-1), red (2-3), green (4-5), blue (6-7). -/
theorem C7_rawdata_decode (s : St) (T b0 b1 b2 b3 b4 b5 b6 b7 : Nat)
    (hb : b0 < 256 ∧ b1 < 256 ∧ b2 < 256 ∧ b3 < 256 ∧
          b4 < 256 ∧ b5 < 256 ∧ b6 < 256 ∧ b7 < 256)
    (h1 : (s.env s.opCount).1 = 0)
    (h2 : s.env (s.opCount + 1) = (0, [b0, b1, b2, b3, b4, b5, b6, b7])) :
    (tcs34725_get_rawdata s T).1 = 0 ∧
    (tcs34725_get_rawdata s T).2.1 =
      ⟨b3 * 256 + b2, b5 * 256 + b4, b7 * 256 + b6, b1 * 256 + b0⟩ := by
  obtain ⟨hb0, hb1, hb2, hb3, hb4, hb5, hb6, hb7⟩ := hb
  unfold tcs34725_get_rawdata tcs34725_readlen hal_i2c_master_write hal_i2c_master_read
    os_time_delay
  dsimp only
  rw [h1, h2]
  dsimp only
  simp only [Nat.mod_eq_of_lt hb0, Nat.mod_eq_of_lt hb1, Nat.mod_eq_of_lt hb2,
    Nat.mod_eq_of_lt hb3, Nat.mod_eq_of_lt hb4, Nat.mod_eq_of_lt hb5,
    Nat.mod_eq_of_lt hb6, Nat.mod_eq_of_lt hb7, List.map_cons, List.map_nil,
    List.cons_append, List.nil_append]
  simp only [ne_eq, eq_self_iff_true, not_true_eq_false, if_false,
    List.take_succ_cons, List.getD_cons_succ, List.getD_cons_zero]
  rw [decode16 b1 b0 hb0, decode16 b3 b2 hb2, decode16 b5 b4 hb4, decode16 b7 b6 hb6]
  exact ⟨trivial, rfl⟩

/-- C7 witness: the spec's concrete block `[0x10,0x00, 0x20,0x00, 0x30,0x00,
0x40,0x00]` decodes to clear 0x0010, red 0x0020, green 0x0030, blue
0x0040. -/
theorem C7_witness :
    (tcs34725_get_rawdata (initSt (envOkWith fun n =>
        if n = 1 then [0x10, 0x00, 0x20, 0x00, 0x30, 0x00, 0x40, 0x00] else []))
      1000).1 = 0 ∧
    (tcs34725_get_rawdata (initSt (envOkWith fun n =>
        if n = 1 then [0x10, 0x00, 0x20, 0x00, 0x30, 0x00, 0x40, 0x00] else []))
      1000).2.1 = ⟨0x0020, 0x0030, 0x0040, 0x0010⟩ :=
  C7_rawdata_decode _ 1000 0x10 0x00 0x20 0x00 0x30 0x00 0x40 0x00
    (by decide) (by decide) (by decide)

/-- C8.  For every integration-time byte (table entries and direct
millisecond counts alike) and every tick rate, the settle delay computed in
`tcs34725_get_rawdata` is at least the floor of the spec's nominal
conversion time in ticks plus the one-tick rounding margin, and hence
strictly exceeds the nominal conversion time (`nominal tenths-of-ms × T`
compared against `delay × 10000`). -/
theorem C8_delay_exceeds_nominal (t T : Nat) :
    rawdata_delay_ticks t T ≥ nominalConversionTenthsMs t * T / 10000 + 1 ∧
    10000 * rawdata_delay_ticks t T > nominalConversionTenthsMs t * T := by
  unfold rawdata_delay_ticks nominalConversionTenthsMs
  split_ifs <;>
    first
      | (constructor <;> omega)
      | (rw [Nat.mul_assoc]; generalize t * T = x; constructor <;> omega)

/-- C9 counterexample.  The interrupt-clear special command is a failing
bus transaction in the register-transport layer, yet the source returns the
failure without incrementing the error counter: with every transport call
failing, `tcs34725_clear_interrupt` fails and the counter stays 0. -/
theorem C9_counterexample :
    (tcs34725_clear_interrupt (initSt envFail)).1 ≠ 0 ∧
    (tcs34725_clear_interrupt (initSt envFail)).2.errors = 0 := by
  decide

/-- C9 as amended: every failing transaction in `tcs34725_write8`,
`tcs34725_read8` (either phase), `tcs34725_readlen` (either phase) and
`tcs34725_writelen` (either transaction) increments the shared error
counter exactly once before the failure is returned, but
`tcs34725_clear_interrupt` never touches the counter. -/
theorem C9_error_counter (s : St) (reg value len : Nat) (buffer : List Nat) :
    ((tcs34725_write8 s reg value).1 ≠ 0 →
      (tcs34725_write8 s reg value).2.errors = s.errors + 1) ∧
    ((tcs34725_read8 s reg).1 ≠ 0 →
      (tcs34725_read8 s reg).2.2.errors = s.errors + 1) ∧
    ((tcs34725_readlen s reg len).1 ≠ 0 →
      (tcs34725_readlen s reg len).2.2.errors = s.errors + 1) ∧
    ((tcs34725_writelen s reg buffer len).1 ≠ 0 →
      (tcs34725_writelen s reg buffer len).2.errors = s.errors + 1) ∧
    (tcs34725_clear_interrupt s).2.errors = s.errors := by
  refine ⟨?_, ?_, ?_, ?_, ?_⟩
  · unfold tcs34725_write8 hal_i2c_master_write statsIncErrors
    dsimp only
    split_ifs with h
    · intro _; rfl
    · intro hc; exact absurd hc h
  · unfold tcs34725_read8 hal_i2c_master_write hal_i2c_master_read statsIncErrors
    dsimp only
    split_ifs with h h2
    · intro _; rfl
    · intro _; rfl
    · intro hc; exact absurd hc h2
  · unfold tcs34725_readlen hal_i2c_master_write hal_i2c_master_read statsIncErrors
    dsimp only
    split_ifs with h h2
    · intro _; rfl
    · intro _; rfl
    · intro hc; exact absurd hc h2
  · unfold tcs34725_writelen hal_i2c_master_write statsIncErrors
    dsimp only
    split_ifs with h h2
    · intro _; rfl
    · intro _; rfl
    · intro hc; exact absurd hc h2
  · unfold tcs34725_clear_interrupt hal_i2c_master_write
    dsimp only
    split_ifs <;> rfl

/-- C9 witness: a failing single-byte write on a fresh device bumps the
error counter from 0 to 1. -/
theorem C9_witness :
    (tcs34725_write8 (initSt envFail) 0 0).1 ≠ 0 ∧
    (tcs34725_write8 (initSt envFail) 0 0).2.errors = 0 + 1 :=
  ⟨by decide, (C9_error_counter (initSt envFail) 0 0 0 []).1 (by decide)⟩
